import Mathlib

/-!
# REST facade over customer / agents / orders (`src/server/server.js`)

A shallow embedding of the seven database-backed route handlers of
`server.js`.  A handler is a function of

* the environment `Env` (what the pool and the SQL server do: whether
  `pool.getConnection()` rejects, whether the k-th `conn.query` rejects, and how
  the server compares a column with a bound parameter),
* the database state `DB` (the three tables, as lists of rows),
* the request (path parameter and JSON body),

and returns an `Outcome`: the database state afterwards, the HTTP response, the
`console.error` lines, and the pool events of the invocation.
-/

namespace RestApi

/-! ## JavaScript values -/

/-- A JSON value that is not an array, as found inside an array. -/
inductive Leaf where
  | null
  | bool (b : Bool)
  | num (n : Int)
  | str (s : String)
  | obj (json : String)
  deriving DecidableEq, Repr

/-- A value of a JSON request body field, or of a column.  `undefined` is what
destructuring yields for a field the body does not have; `obj` is an object, kept
by its JSON text; `arr` is an array, kept by its leaves: the values that are not
arrays it holds, in order, nested arrays opened up (the handlers only test an
array for truthiness and bind it, and the driver binds it leaf by leaf).  Numbers
are kept as integers: all the handlers do with a number is test it with `!x` or
`x || y` and bind it, and there a fractional number behaves as any other non-zero
number. -/
inductive Val where
  | undefined
  | null
  | bool (b : Bool)
  | num (n : Int)
  | str (s : String)
  | obj (json : String)
  | arr (leaves : List Leaf)
  deriving DecidableEq, Repr

/-- JavaScript truthiness, the meaning of `!x` and of `x || y` in the handlers:
`undefined`, `null`, `false`, `0` and `''` are falsy, everything else (every
object and every array, the empty one too) truthy. -/
def Val.truthy : Val → Bool
  | .undefined => false
  | .null => false
  | .bool b => b
  | .num n => decide (n ≠ 0)
  | .str s => decide (s ≠ "")
  | .obj _ => true
  | .arr _ => true

/-- A field given no value: absent from the body (`undefined`) or `null`. -/
def Val.isNullish : Val → Bool
  | .undefined => true
  | .null => true
  | _ => false

/-- A string or a number: the values the driver binds as themselves. -/
def Val.isStrOrNum : Val → Bool
  | .num _ => true
  | .str _ => true
  | _ => false

/-- A non-empty string or a non-zero number. -/
def Val.isFilled (v : Val) : Bool := v.truthy && v.isStrOrNum

/-- The JavaScript operator `a || b`. -/
def Val.or (a b : Val) : Val := if a.truthy then a else b

/-- The SQL literal the driver writes for a value that is not an array: `NULL`
for null, `true` / `false` (the numbers 1 / 0 to the server) for a boolean, the
number or the quoted string itself, and for an object its JSON text as a quoted
string. -/
def Leaf.bind : Leaf → Val
  | .null => .null
  | .bool b => .num (if b then 1 else 0)
  | .num n => .num n
  | .str s => .str s
  | .obj json => .str json

/-- How the driver binds a `?` parameter: the list of SQL values it writes in the
place of the `?`, separated by commas.  `undefined` and `null` are written `NULL`;
a boolean, number, string or object is one literal (see `Leaf.bind`); an array is
written as the comma list of its leaves, so an empty array as nothing at all.  (A
driver that refuses an `undefined` parameter is an environment in which that
query throws, see `Env.queryError`.) -/
def bindParam : Val → List Val
  | .undefined => [.null]
  | .null => [.null]
  | .bool b => [Leaf.bind (.bool b)]
  | .num n => [.num n]
  | .str s => [.str s]
  | .obj json => [Leaf.bind (.obj json)]
  | .arr leaves => leaves.map Leaf.bind

/-- The SQL function `COALESCE(p1, ..., pk, old)`: the first argument that is not
`NULL`, `old` being the last. -/
def coalesce (ps : List Val) (old : Val) : Val :=
  match ps.find? (fun p => decide (p ≠ .null)) with
  | some p => p
  | none => old

/-! ## Tables -/

/-- A row of `customer`: the columns the handlers name, and the remaining
columns (selected by `c.*`, never written) as `extra`. -/
structure Customer where
  CUST_CODE : Val
  CUST_NAME : Val
  CUST_CITY : Val
  PHONE_NO : Val
  AGENT_CODE : Val
  extra : List (String × Val)
  deriving DecidableEq, Repr

/-- A row of `agents`: the six columns of the `INSERT` statement. -/
structure Agent where
  AGENT_CODE : Val
  AGENT_NAME : Val
  WORKING_AREA : Val
  COMMISSION : Val
  PHONE_NO : Val
  COUNTRY : Val
  deriving DecidableEq, Repr

/-- A row of `orders`: the columns the handlers name, the others as `extra`. -/
structure Order where
  ORD_NUM : Val
  ORD_AMOUNT : Val
  ADVANCE_AMOUNT : Val
  ORD_DATE : Val
  CUST_CODE : Val
  AGENT_CODE : Val
  extra : List (String × Val)
  deriving DecidableEq, Repr

/-- The database state: the three tables. -/
structure DB where
  customer : List Customer
  agents : List Agent
  orders : List Order
  deriving DecidableEq, Repr

/-- A result row of the customer query of `GET /customers/:id`:
`c.*, a.AGENT_NAME, a.WORKING_AREA AS AGENT_AREA, a.PHONE_NO AS AGENT_PHONE`. -/
structure CustomerWithAgent where
  customer : Customer
  AGENT_NAME : Val
  AGENT_AREA : Val
  AGENT_PHONE : Val
  deriving DecidableEq, Repr

/-- A result row of `SELECT ORD_NUM, ORD_AMOUNT, ORD_DATE, AGENT_CODE FROM orders`. -/
structure OrderSummary where
  ORD_NUM : Val
  ORD_AMOUNT : Val
  ORD_DATE : Val
  AGENT_CODE : Val
  deriving DecidableEq, Repr

/-! ## Environment, responses, outcomes -/

/-- An error value thrown by the pool or by a query. -/
abbrev Err := String

/-- What lies outside `server.js`.  `acquireError = some e`: `pool.getConnection()`
rejects with `e`.  `queryError k = some e`: the k-th `conn.query` of the
invocation (counted from 0) rejects with `e` and changes nothing.  `sqlEq col p`:
the server's comparison `col = ?` of a column value with a bound parameter (it
depends on column type and collation, which the source does not fix). -/
structure Env where
  acquireError : Option Err
  queryError : Nat → Option Err
  sqlEq : Val → Val → Bool

/-- JSON bodies sent by the handlers. -/
inductive Body where
  | customers (rows : List Customer)
  | orders (rows : List Order)
  | customerDetail (row : CustomerWithAgent) (orders : List OrderSummary)
  | message (text : String)
  | error (text : String)
  deriving DecidableEq, Repr

/-- An HTTP response: status code and JSON body. -/
structure Response where
  status : Nat
  body : Body
  deriving DecidableEq, Repr

/-- What an invocation does to the pool. -/
inductive PoolEvent where
  | acquired
  | acquireFailed
  | released
  deriving DecidableEq, Repr

/-- The result of one handler invocation. -/
structure Outcome where
  db : DB
  response : Response
  log : List (String × Err)
  pool : List PoolEvent
  deriving DecidableEq, Repr

/-- Connections held after a sequence of pool events, starting from `n`. -/
def held (n : Nat) : List PoolEvent → Nat
  | [] => n
  | .acquired :: es => held (n + 1) es
  | .acquireFailed :: es => held n es
  | .released :: es => held (n - 1) es

/-- The value of `await conn.query(...)` for the k-th query: it throws when the
environment says so; otherwise the server runs the statement, which is rejected
(`statement` is an error) or yields its result. -/
def Env.query {α : Type} (env : Env) (k : Nat) (statement : Except Err α) : Except Err α :=
  match env.queryError k with
  | some e => .error e
  | none => statement

/-- The error of the server for a statement it cannot parse. -/
def parseError : Err := "ER_PARSE_ERROR"

/-- The error of the server for an `INSERT` whose value list is not as long as
its column list. -/
def valueCountError : Err := "ER_WRONG_VALUE_COUNT_ON_ROW"

/-- The skeleton shared, verbatim, by the seven handlers:
`let conn; try { conn = await pool.getConnection(); BODY }
 catch (err) { console.error(label, err); res.status(500).json({ error: text }); }
 finally { if (conn) conn.release(); }`.
`tryBody` is `BODY`: it throws, or ends with the new state and the response. -/
def withConnection (env : Env) (db : DB) (label text : String)
    (tryBody : DB → Except Err (DB × Response)) : Outcome :=
  -- let conn; try { conn = await pool.getConnection(); BODY }
  let attempt : Bool × List PoolEvent × Except Err (DB × Response) :=
    match env.acquireError with
    | some err => (false, [.acquireFailed], .error err)
    | none => (true, [.acquired], tryBody db)
  let conn := attempt.1
  -- finally { if (conn) conn.release(); }
  let pool := if conn then attempt.2.1 ++ [.released] else attempt.2.1
  match attempt.2.2 with
  | .ok (db', r) => { db := db', response := r, log := [], pool := pool }
  -- catch (err) { console.error(label, err); res.status(500).json({ error: text }); }
  | .error err =>
    { db := db, response := ⟨500, .error text⟩, log := [(label, err)], pool := pool }

/-! ## SQL statements -/

/-- The statement `UPDATE t SET ... WHERE p`: every row satisfying `p` is
replaced by `f row`; `affectedRows` is the number of rows matched (the driver's
default, `foundRows`). -/
def updateWhere {α : Type} (p : α → Bool) (f : α → α) (rows : List α) : List α × Nat :=
  (rows.map (fun r => if p r then f r else r), (rows.filter p).length)

/-- The statement `DELETE FROM t WHERE p`, with its `affectedRows`. -/
def deleteWhere {α : Type} (p : α → Bool) (rows : List α) : List α × Nat :=
  (rows.filter (fun r => !p r), (rows.filter p).length)

/-- The select list `c.*, a.AGENT_NAME, a.WORKING_AREA AS AGENT_AREA, a.PHONE_NO AS
AGENT_PHONE` on a pair of joined rows. -/
def joinRow (c : Customer) (a : Agent) : CustomerWithAgent :=
  { customer := c, AGENT_NAME := a.AGENT_NAME, AGENT_AREA := a.WORKING_AREA,
    AGENT_PHONE := a.PHONE_NO }

/-- The customer query of `GET /customers/:id`: `customer c JOIN agents a ON
c.AGENT_CODE = a.AGENT_CODE WHERE c.CUST_CODE = ?`. -/
def selectCustomerWithAgent (env : Env) (db : DB) (id : Val) : List CustomerWithAgent :=
  db.customer.flatMap fun c =>
    (db.agents.filter fun a =>
        env.sqlEq c.AGENT_CODE a.AGENT_CODE && env.sqlEq c.CUST_CODE id).map (joinRow c)

/-- The projection `ORD_NUM, ORD_AMOUNT, ORD_DATE, AGENT_CODE` of an order. -/
def Order.summary (o : Order) : OrderSummary :=
  { ORD_NUM := o.ORD_NUM, ORD_AMOUNT := o.ORD_AMOUNT, ORD_DATE := o.ORD_DATE,
    AGENT_CODE := o.AGENT_CODE }

/-- The orders query of `GET /customers/:id`:
`SELECT ORD_NUM, ORD_AMOUNT, ORD_DATE, AGENT_CODE FROM orders WHERE CUST_CODE = ?`. -/
def selectOrdersOf (env : Env) (db : DB) (id : Val) : List OrderSummary :=
  (db.orders.filter fun o => env.sqlEq o.CUST_CODE id).map Order.summary

/-! ## Request bodies -/

/-- The fields `POST /agents` destructures from `req.body`. -/
structure AgentBody where
  agent_code : Val
  agent_name : Val
  working_area : Val
  commission : Val
  phone_no : Val
  country : Val
  deriving DecidableEq, Repr

/-- The fields `PATCH /customers/:id` destructures from `req.body`. -/
structure CustomerPatch where
  cust_name : Val
  phone_no : Val
  city : Val
  deriving DecidableEq, Repr

/-- The fields `PUT /orders/:id` destructures from `req.body`. -/
structure OrderBody where
  cust_code : Val
  agent_code : Val
  ord_amount : Val
  advance_amount : Val
  ord_date : Val
  deriving DecidableEq, Repr

/-! ## The handlers

The path parameter `id` is a string, which the driver binds as itself. -/

/-- Handler of `GET /customers`. -/
def getCustomers (env : Env) (db : DB) : Outcome :=
  withConnection env db "Error fetching customers:" "Failed to fetch customers" fun db =>
    match env.query 0 (.ok db.customer) with
    | .error e => .error e
    | .ok customers => .ok (db, ⟨200, .customers customers⟩)

/-- Handler of `GET /customers/:id`. -/
def getCustomerById (env : Env) (db : DB) (id : String) : Outcome :=
  withConnection env db "Error fetching customer with agent and orders:"
    "Failed to fetch customer details" fun db =>
    match env.query 0 (.ok (selectCustomerWithAgent env db (.str id))) with
    | .error e => .error e
    | .ok [] => .ok (db, ⟨404, .message "Customer not found"⟩)
    | .ok (customer0 :: _) =>
      match env.query 1 (.ok (selectOrdersOf env db (.str id))) with
      | .error e => .error e
      | .ok orders => .ok (db, ⟨200, .customerDetail customer0 orders⟩)

/-- Handler of `GET /orders`. -/
def getOrders (env : Env) (db : DB) : Outcome :=
  withConnection env db "Error fetching orders:" "Failed to fetch orders" fun db =>
    match env.query 0 (.ok db.orders) with
    | .error e => .error e
    | .ok orders => .ok (db, ⟨200, .orders orders⟩)

/-- The six parameters of the `INSERT` of `POST /agents`, as the driver binds
them. -/
def agentParams (b : AgentBody) : List (List Val) :=
  [bindParam b.agent_code, bindParam b.agent_name, bindParam b.working_area,
   bindParam (b.commission.or (.num 0)), bindParam (b.phone_no.or .null),
   bindParam (b.country.or .null)]

/-- The row of the `INSERT` of `POST /agents` when each parameter is bound as one
value. -/
def agentRow (b : AgentBody) : Agent :=
  { AGENT_CODE := (bindParam b.agent_code).headD .null
    AGENT_NAME := (bindParam b.agent_name).headD .null
    WORKING_AREA := (bindParam b.working_area).headD .null
    COMMISSION := (bindParam (b.commission.or (.num 0))).headD .null
    PHONE_NO := (bindParam (b.phone_no.or .null)).headD .null
    COUNTRY := (bindParam (b.country.or .null)).headD .null }

/-- The statement `INSERT INTO agents (AGENT_CODE, AGENT_NAME, WORKING_AREA,
COMMISSION, PHONE_NO, COUNTRY) VALUES (?, ?, ?, ?, ?, ?)`: a parameter written as
nothing leaves `VALUES (.., , ..)`, which does not parse; a parameter written as
several values makes the value list longer than the column list; otherwise the
row is appended. -/
def insertAgent (b : AgentBody) (rows : List Agent) : Except Err (List Agent) :=
  if (agentParams b).any List.isEmpty then .error parseError
  else if (agentParams b).any (fun p => decide (p.length ≠ 1)) then .error valueCountError
  else .ok (rows ++ [agentRow b])

/-- Handler of `POST /agents`. -/
def postAgents (env : Env) (db : DB) (b : AgentBody) : Outcome :=
  if !b.agent_code.truthy || !b.agent_name.truthy || !b.working_area.truthy then
    { db := db, response := ⟨400, .error "Missing required fields"⟩, log := [], pool := [] }
  else
    withConnection env db "Error adding agent:" "Failed to add agent" fun db =>
      match env.query 0 (insertAgent b db.agents) with
      | .error e => .error e
      | .ok agents => .ok ({ db with agents := agents }, ⟨201, .message "Agent created successfully"⟩)

/-- The `SET` clause of `PATCH /customers/:id`: `CUST_NAME = COALESCE(?, CUST_NAME),
PHONE_NO = COALESCE(?, PHONE_NO), CUST_CITY = COALESCE(?, CUST_CITY)`. -/
def patchRow (b : CustomerPatch) (c : Customer) : Customer :=
  { c with
    CUST_NAME := coalesce (bindParam b.cust_name) c.CUST_NAME
    PHONE_NO := coalesce (bindParam b.phone_no) c.PHONE_NO
    CUST_CITY := coalesce (bindParam b.city) c.CUST_CITY }

/-- The statement `UPDATE customer SET ... WHERE CUST_CODE = ?` of
`PATCH /customers/:id`: a parameter written as nothing leaves `COALESCE(, COL)`,
which does not parse; otherwise every row with CUST_CODE = id is updated. -/
def updateCustomer (env : Env) (id : String) (b : CustomerPatch) (rows : List Customer) :
    Except Err (List Customer × Nat) :=
  if [bindParam b.cust_name, bindParam b.phone_no, bindParam b.city].any List.isEmpty then
    .error parseError
  else .ok (updateWhere (fun c => env.sqlEq c.CUST_CODE (.str id)) (patchRow b) rows)

/-- Handler of `PATCH /customers/:id`. -/
def patchCustomer (env : Env) (db : DB) (id : String) (b : CustomerPatch) : Outcome :=
  withConnection env db "Error updating customer:" "Failed to update customer" fun db =>
    match env.query 0 (updateCustomer env id b db.customer) with
    | .error e => .error e
    | .ok result =>
      if result.2 = 0 then
        .ok ({ db with customer := result.1 }, ⟨404, .message "Customer not found"⟩)
      else
        .ok ({ db with customer := result.1 }, ⟨200, .message "Customer updated successfully"⟩)

/-- The `SET` clause of `PUT /orders/:id`, `CUST_CODE = ?, AGENT_CODE = ?,
ORD_AMOUNT = ?, ADVANCE_AMOUNT = ?, ORD_DATE = ?`, when each parameter is bound as
one value. -/
def putRow (b : OrderBody) (o : Order) : Order :=
  { o with
    CUST_CODE := (bindParam b.cust_code).headD .null
    AGENT_CODE := (bindParam b.agent_code).headD .null
    ORD_AMOUNT := (bindParam b.ord_amount).headD .null
    ADVANCE_AMOUNT := (bindParam b.advance_amount).headD .null
    ORD_DATE := (bindParam b.ord_date).headD .null }

/-- The statement `UPDATE orders SET ... WHERE ORD_NUM = ?` of `PUT /orders/:id`:
a parameter written as nothing or as several values leaves `COL = ,` or
`COL = v1, v2,`, which does not parse; otherwise every row with ORD_NUM = id is
updated. -/
def updateOrder (env : Env) (id : String) (b : OrderBody) (rows : List Order) :
    Except Err (List Order × Nat) :=
  if [bindParam b.cust_code, bindParam b.agent_code, bindParam b.ord_amount,
      bindParam b.advance_amount, bindParam b.ord_date].any (fun p => decide (p.length ≠ 1)) then
    .error parseError
  else .ok (updateWhere (fun o => env.sqlEq o.ORD_NUM (.str id)) (putRow b) rows)

/-- Handler of `PUT /orders/:id`. -/
def putOrder (env : Env) (db : DB) (id : String) (b : OrderBody) : Outcome :=
  if !b.cust_code.truthy || !b.agent_code.truthy || !b.ord_amount.truthy
      || !b.advance_amount.truthy || !b.ord_date.truthy then
    { db := db, response := ⟨400, .error "Missing required fields for full update"⟩,
      log := [], pool := [] }
  else
    withConnection env db "Error updating order:" "Failed to update order" fun db =>
      match env.query 0 (updateOrder env id b db.orders) with
      | .error e => .error e
      | .ok result =>
        if result.2 = 0 then
          .ok ({ db with orders := result.1 }, ⟨404, .message "Order not found"⟩)
        else
          .ok ({ db with orders := result.1 }, ⟨200, .message "Order fully updated successfully"⟩)

/-- Handler of `DELETE /orders/:id`. -/
def deleteOrder (env : Env) (db : DB) (id : String) : Outcome :=
  withConnection env db "Error deleting order:" "Failed to delete order" fun db =>
    match env.query 0 (.ok (deleteWhere (fun o => env.sqlEq o.ORD_NUM (.str id)) db.orders)) with
    | .error e => .error e
    | .ok result =>
      if result.2 = 0 then
        .ok ({ db with orders := result.1 }, ⟨404, .message "Order not found"⟩)
      else
        .ok ({ db with orders := result.1 }, ⟨200, .message "Order deleted successfully"⟩)

/-! ## Routing -/

/-- A request to one of the database-backed routes. -/
inductive Request where
  | getCustomers
  | getCustomerById (id : String)
  | getOrders
  | postAgents (body : AgentBody)
  | patchCustomer (id : String) (body : CustomerPatch)
  | putOrder (id : String) (body : OrderBody)
  | deleteOrder (id : String)
  deriving DecidableEq, Repr

/-- The routes registered with `app.get`, `app.post`, `app.patch`, `app.put`,
`app.delete`. -/
inductive Endpoint where
  | getCustomers
  | getCustomerById
  | getOrders
  | postAgents
  | patchCustomer
  | putOrder
  | deleteOrder
  deriving DecidableEq, Repr

/-- The route a request is dispatched to. -/
def Request.endpoint : Request → Endpoint
  | .getCustomers => .getCustomers
  | .getCustomerById _ => .getCustomerById
  | .getOrders => .getOrders
  | .postAgents _ => .postAgents
  | .patchCustomer _ _ => .patchCustomer
  | .putOrder _ _ => .putOrder
  | .deleteOrder _ => .deleteOrder

/-- Dispatch of a request to its handler. -/
def handle (env : Env) (db : DB) : Request → Outcome
  | .getCustomers => getCustomers env db
  | .getCustomerById id => getCustomerById env db id
  | .getOrders => getOrders env db
  | .postAgents b => postAgents env db b
  | .patchCustomer id b => patchCustomer env db id b
  | .putOrder id b => putOrder env db id b
  | .deleteOrder id => deleteOrder env db id

/-- The `error` text each route sends from its `catch` block. -/
def Endpoint.failureText : Endpoint → String
  | .getCustomers => "Failed to fetch customers"
  | .getCustomerById => "Failed to fetch customer details"
  | .getOrders => "Failed to fetch orders"
  | .postAgents => "Failed to add agent"
  | .patchCustomer => "Failed to update customer"
  | .putOrder => "Failed to update order"
  | .deleteOrder => "Failed to delete order"

/-! ## Predicates on requests -/

/-- The body lacks a required field of the route (the field is absent or null):
for `POST /agents` one of `agent_code`, `agent_name`, `working_area`; for
`PUT /orders/:id` one of `cust_code`, `agent_code`, `ord_amount`,
`advance_amount`, `ord_date`.  The five other routes have no required body
field. -/
def Request.lacksRequired : Request → Bool
  | .postAgents b =>
    b.agent_code.isNullish || b.agent_name.isNullish || b.working_area.isNullish
  | .putOrder _ b =>
    b.cust_code.isNullish || b.agent_code.isNullish || b.ord_amount.isNullish
      || b.advance_amount.isNullish || b.ord_date.isNullish
  | _ => false

/-- Every required body field of the route is truthy. -/
def Request.requiredTruthy : Request → Bool
  | .postAgents b => b.agent_code.truthy && b.agent_name.truthy && b.working_area.truthy
  | .putOrder _ b =>
    b.cust_code.truthy && b.agent_code.truthy && b.ord_amount.truthy
      && b.advance_amount.truthy && b.ord_date.truthy
  | _ => true

/-- The statement is one the server rejects. -/
def rejected {α : Type} : Except Err α → Bool
  | .error _ => true
  | .ok _ => false

/-- A failure is raised in the invocation: the request passes the validation,
and `pool.getConnection()` rejects, or the first query throws (the environment
makes it, or the server rejects the statement), or, for `GET /customers/:id`, the
second query throws, which the handler issues when the first one found a row. -/
def failureRaised (env : Env) (db : DB) : Request → Bool
  | .getCustomers => env.acquireError.isSome || (env.queryError 0).isSome
  | .getCustomerById id =>
    env.acquireError.isSome || (env.queryError 0).isSome
      || (!(selectCustomerWithAgent env db (.str id)).isEmpty && (env.queryError 1).isSome)
  | .getOrders => env.acquireError.isSome || (env.queryError 0).isSome
  | .postAgents b =>
    (b.agent_code.truthy && b.agent_name.truthy && b.working_area.truthy)
      && (env.acquireError.isSome || (env.queryError 0).isSome
          || rejected (insertAgent b db.agents))
  | .patchCustomer id b =>
    env.acquireError.isSome || (env.queryError 0).isSome
      || rejected (updateCustomer env id b db.customer)
  | .putOrder id b =>
    (b.cust_code.truthy && b.agent_code.truthy && b.ord_amount.truthy
        && b.advance_amount.truthy && b.ord_date.truthy)
      && (env.acquireError.isSome || (env.queryError 0).isSome
          || rejected (updateOrder env id b db.orders))
  | .deleteOrder _ => env.acquireError.isSome || (env.queryError 0).isSome

/-! ## Sample data -/

/-- An environment in which nothing fails and `=` is equality of values, `NULL`
being equal to nothing. -/
def envOk : Env :=
  { acquireError := none
    queryError := fun _ => none
    sqlEq := fun a b => !(decide (a = .null)) && decide (a = b) }

/-- The environment `envOk` with a pool that rejects with `e`. -/
def envPoolDown (e : Err) : Env := { envOk with acquireError := some e }

/-- The environment `envOk` whose k-th query rejects with `e`. -/
def envQueryFails (k : Nat) (e : Err) : Env :=
  { envOk with queryError := fun i => if i = k then some e else none }

def agentA : Agent :=
  { AGENT_CODE := .str "A003", AGENT_NAME := .str "Alex", WORKING_AREA := .str "London",
    COMMISSION := .num 13, PHONE_NO := .str "075-12458969", COUNTRY := .null }

def agentB : Agent :=
  { AGENT_CODE := .str "A008", AGENT_NAME := .str "Alford", WORKING_AREA := .str "New York",
    COMMISSION := .num 12, PHONE_NO := .str "044-25874365", COUNTRY := .null }

def customerC1 : Customer :=
  { CUST_CODE := .str "C00013", CUST_NAME := .str "Holmes", CUST_CITY := .str "London",
    PHONE_NO := .str "BBBBBBB", AGENT_CODE := .str "A003", extra := [("GRADE", .num 2)] }

def customerC2 : Customer :=
  { CUST_CODE := .str "C00001", CUST_NAME := .str "Micheal", CUST_CITY := .str "New York",
    PHONE_NO := .str "CCCCCCC", AGENT_CODE := .str "A008", extra := [("GRADE", .num 2)] }

def order1 : Order :=
  { ORD_NUM := .str "200100", ORD_AMOUNT := .num 1000, ADVANCE_AMOUNT := .num 600,
    ORD_DATE := .str "2008-01-08", CUST_CODE := .str "C00013", AGENT_CODE := .str "A003",
    extra := [("ORD_DESCRIPTION", .str "SOD")] }

def order2 : Order :=
  { ORD_NUM := .str "200110", ORD_AMOUNT := .num 3000, ADVANCE_AMOUNT := .num 500,
    ORD_DATE := .str "2008-04-15", CUST_CODE := .str "C00001", AGENT_CODE := .str "A008",
    extra := [("ORD_DESCRIPTION", .str "SOD")] }

/-- A database of two customers, their two agents and two orders. -/
def sampleDB : DB :=
  { customer := [customerC1, customerC2], agents := [agentA, agentB],
    orders := [order1, order2] }

/-! ## Lemmas on the skeleton and the statements -/

theorem truthy_of_isNullish {v : Val} (h : v.isNullish = true) : v.truthy = false := by
  cases v <;> simp_all [Val.isNullish, Val.truthy]

theorem bindParam_of_isNullish {v : Val} (h : v.isNullish = true) : bindParam v = [.null] := by
  cases v <;> simp_all [Val.isNullish, bindParam]

theorem bindParam_of_isStrOrNum {v : Val} (h : v.isStrOrNum = true) : bindParam v = [v] := by
  cases v <;> simp_all [Val.isStrOrNum, bindParam]

theorem ne_null_of_isStrOrNum {v : Val} (h : v.isStrOrNum = true) : v ≠ .null := by
  cases v <;> simp_all [Val.isStrOrNum]

theorem coalesce_null (old : Val) : coalesce [.null] old = old := by
  simp [coalesce]

theorem coalesce_single {v : Val} (h : v ≠ .null) (old : Val) : coalesce [v] old = v := by
  simp [coalesce, h]

theorem coalesce_idem (ps : List Val) (old : Val) :
    coalesce ps (coalesce ps old) = coalesce ps old := by
  unfold coalesce
  cases ps.find? (fun p => decide (p ≠ .null)) <;> rfl

theorem Env.query_ok {α : Type} {env : Env} {k : Nat} (h : env.queryError k = none)
    (s : Except Err α) : env.query k s = s := by
  simp [Env.query, h]

theorem Env.query_error {α : Type} {env : Env} {k : Nat} {e : Err}
    (h : env.queryError k = some e) (s : Except Err α) : env.query k s = .error e := by
  simp [Env.query, h]

theorem withConnection_ok {env : Env} {db db' : DB} {label text : String}
    {tryBody : DB → Except Err (DB × Response)} {r : Response}
    (hacq : env.acquireError = none) (hb : tryBody db = .ok (db', r)) :
    withConnection env db label text tryBody
      = { db := db', response := r, log := [], pool := [.acquired, .released] } := by
  simp [withConnection, hacq, hb]

theorem withConnection_throw {env : Env} {db : DB} {label text : String}
    {tryBody : DB → Except Err (DB × Response)} {e : Err}
    (hacq : env.acquireError = none) (hb : tryBody db = .error e) :
    withConnection env db label text tryBody
      = { db := db, response := ⟨500, .error text⟩, log := [(label, e)],
          pool := [.acquired, .released] } := by
  simp [withConnection, hacq, hb]

theorem withConnection_noConn {env : Env} {db : DB} {label text : String}
    {tryBody : DB → Except Err (DB × Response)} {e : Err}
    (hacq : env.acquireError = some e) :
    withConnection env db label text tryBody
      = { db := db, response := ⟨500, .error text⟩, log := [(label, e)],
          pool := [.acquireFailed] } := by
  simp [withConnection, hacq]

theorem mem_selectCustomerWithAgent {env : Env} {db : DB} {v : Val} {x : CustomerWithAgent} :
    x ∈ selectCustomerWithAgent env db v ↔
      ∃ c ∈ db.customer, ∃ a ∈ db.agents,
        env.sqlEq c.AGENT_CODE a.AGENT_CODE = true ∧ env.sqlEq c.CUST_CODE v = true ∧
        x = joinRow c a := by
  simp only [selectCustomerWithAgent, List.mem_flatMap, List.mem_map, List.mem_filter,
    Bool.and_eq_true]
  constructor
  · rintro ⟨c, hc, a, ⟨ha, h1, h2⟩, rfl⟩
    exact ⟨c, hc, a, ha, h1, h2, rfl⟩
  · rintro ⟨c, hc, a, ha, h1, h2, rfl⟩
    exact ⟨c, hc, a, ⟨ha, h1, h2⟩, rfl⟩

theorem filter_length_eq_zero_iff {α : Type} (p : α → Bool) (rows : List α) :
    (rows.filter p).length = 0 ↔ ∀ r ∈ rows, p r = false := by
  induction rows with
  | nil => simp
  | cons r rs ih =>
    by_cases h : p r = true
    · simp [List.filter_cons, h]
    · have h' : p r = false := by simpa using h
      simp [List.filter_cons, h', ih]

theorem map_ite_eq_self {α : Type} (p : α → Bool) (f : α → α) (rows : List α)
    (h : ∀ r ∈ rows, p r = false) : rows.map (fun r => if p r then f r else r) = rows := by
  induction rows with
  | nil => rfl
  | cons r rs ih =>
    have hr : p r = false := h r (List.mem_cons_self _ _)
    have hrs : ∀ x ∈ rs, p x = false := fun x hx => h x (List.mem_cons_of_mem _ hx)
    simp [hr, ih hrs]

theorem filter_not_eq_self {α : Type} (p : α → Bool) (rows : List α)
    (h : ∀ r ∈ rows, p r = false) : rows.filter (fun r => !p r) = rows := by
  induction rows with
  | nil => rfl
  | cons r rs ih =>
    have hr : p r = false := h r (List.mem_cons_self _ _)
    have hrs : ∀ x ∈ rs, p x = false := fun x hx => h x (List.mem_cons_of_mem _ hx)
    simp [List.filter_cons, hr, ih hrs]

theorem updateWhere_idem {α : Type} (p : α → Bool) (f : α → α) (rows : List α)
    (hp : ∀ r, p (f r) = p r) (hf : ∀ r, f (f r) = f r) :
    updateWhere p f (updateWhere p f rows).1 = updateWhere p f rows := by
  induction rows with
  | nil => rfl
  | cons r rs ih =>
    simp only [updateWhere, List.map_cons, List.filter_cons, Prod.mk.injEq] at ih ⊢
    obtain ⟨ih1, ih2⟩ := ih
    by_cases h : p r = true
    · simp only [h, hp, hf, if_true, List.length_cons, ih1, ih2, and_self]
    · have h' : p r = false := by simpa using h
      simp [h', ih1, ih2]

theorem exists_match_iff {α : Type} (p : α → Bool) (rows : List α) :
    (∃ r ∈ rows, p r = true) ↔ (rows.filter p).length ≠ 0 := by
  rw [Ne, filter_length_eq_zero_iff]
  constructor
  · rintro ⟨r, hr, hp⟩ hall
    rw [hall r hr] at hp
    exact Bool.false_ne_true hp
  · intro h
    by_contra hne
    apply h
    intro r hr
    by_contra hp
    exact hne ⟨r, hr, by simpa using hp⟩

theorem withConnection_cases (env : Env) (db : DB) (label text : String)
    (tryBody : DB → Except Err (DB × Response)) :
    (∃ e, env.acquireError = some e ∧
        withConnection env db label text tryBody
          = { db := db, response := ⟨500, .error text⟩, log := [(label, e)],
              pool := [.acquireFailed] }) ∨
    (∃ e, env.acquireError = none ∧ tryBody db = .error e ∧
        withConnection env db label text tryBody
          = { db := db, response := ⟨500, .error text⟩, log := [(label, e)],
              pool := [.acquired, .released] }) ∨
    (∃ db' r, env.acquireError = none ∧ tryBody db = .ok (db', r) ∧
        withConnection env db label text tryBody
          = { db := db', response := r, log := [], pool := [.acquired, .released] }) := by
  cases hacq : env.acquireError with
  | some e => exact Or.inl ⟨e, rfl, withConnection_noConn hacq⟩
  | none =>
    cases hb : tryBody db with
    | error e => exact Or.inr (Or.inl ⟨e, rfl, rfl, withConnection_throw hacq hb⟩)
    | ok x => exact Or.inr (Or.inr ⟨x.1, x.2, rfl, rfl, withConnection_ok hacq hb⟩)

/-- An invocation that passes the validation ends in one of three ways: the pool
rejects; a query throws; or the response of the `try` block is sent, whose status
is 200, 201 or 404. -/
theorem withConnection_outcome (env : Env) (db : DB) (label text : String)
    (tryBody : DB → Except Err (DB × Response))
    (hst : ∀ db' r, tryBody db = .ok (db', r) → r.status = 200 ∨ r.status = 201 ∨ r.status = 404) :
    (∃ e, env.acquireError = some e ∧
        withConnection env db label text tryBody
          = { db := db, response := ⟨500, .error text⟩, log := [(label, e)],
              pool := [.acquireFailed] }) ∨
    (∃ e, env.acquireError = none ∧
        withConnection env db label text tryBody
          = { db := db, response := ⟨500, .error text⟩, log := [(label, e)],
              pool := [.acquired, .released] }) ∨
    (env.acquireError = none ∧
        (withConnection env db label text tryBody).log = [] ∧
        (withConnection env db label text tryBody).pool = [.acquired, .released] ∧
        ((withConnection env db label text tryBody).response.status = 200 ∨
         (withConnection env db label text tryBody).response.status = 201 ∨
         (withConnection env db label text tryBody).response.status = 404)) := by
  rcases withConnection_cases env db label text tryBody with
    ⟨e, h1, h2⟩ | ⟨e, h1, _, h2⟩ | ⟨db', r, h1, hb, h2⟩
  · exact Or.inl ⟨e, h1, h2⟩
  · exact Or.inr (Or.inl ⟨e, h1, h2⟩)
  · refine Or.inr (Or.inr ⟨h1, ?_, ?_, ?_⟩)
    · rw [h2]
    · rw [h2]
    · rw [h2]; exact hst db' r hb

theorem patchRow_idem (b : CustomerPatch) (c : Customer) :
    patchRow b (patchRow b c) = patchRow b c := by
  simp [patchRow, coalesce_idem]

theorem patchCustomer_run {env : Env} (db : DB) (id : String) (b : CustomerPatch)
    (hacq : env.acquireError = none) (hq0 : env.queryError 0 = none)
    (hwf : [bindParam b.cust_name, bindParam b.phone_no, bindParam b.city].any List.isEmpty
      = false) :
    patchCustomer env db id b
      = { db := { db with
                  customer := db.customer.map fun c =>
                    if env.sqlEq c.CUST_CODE (.str id) then patchRow b c else c }
          response :=
            if (db.customer.filter fun c => env.sqlEq c.CUST_CODE (.str id)).length = 0 then
              ⟨404, .message "Customer not found"⟩
            else ⟨200, .message "Customer updated successfully"⟩
          log := [], pool := [.acquired, .released] } := by
  unfold patchCustomer
  by_cases h : (db.customer.filter fun c => env.sqlEq c.CUST_CODE (.str id)).length = 0
  · rw [if_pos h]
    apply withConnection_ok hacq
    simp only [Env.query_ok hq0, updateCustomer, hwf, Bool.false_eq_true, if_false, updateWhere]
    rw [if_pos h]
  · rw [if_neg h]
    apply withConnection_ok hacq
    simp only [Env.query_ok hq0, updateCustomer, hwf, Bool.false_eq_true, if_false, updateWhere]
    rw [if_neg h]

theorem patchCustomer_fault (env : Env) (db : DB) (id : String) (b : CustomerPatch)
    (h : ¬(env.acquireError = none ∧ env.queryError 0 = none ∧
      [bindParam b.cust_name, bindParam b.phone_no, bindParam b.city].any List.isEmpty
        = false)) :
    (patchCustomer env db id b).db = db ∧
    (patchCustomer env db id b).response = ⟨500, .error "Failed to update customer"⟩ := by
  unfold patchCustomer
  cases hacq : env.acquireError with
  | some e => rw [withConnection_noConn hacq]; exact ⟨rfl, rfl⟩
  | none =>
    cases hq0 : env.queryError 0 with
    | some e =>
      rw [withConnection_throw hacq (e := e) (by simp [Env.query, hq0])]
      exact ⟨rfl, rfl⟩
    | none =>
      have hwf : [bindParam b.cust_name, bindParam b.phone_no, bindParam b.city].any
          List.isEmpty = true := by
        by_contra hc
        exact h ⟨hacq, hq0, by simpa using hc⟩
      rw [withConnection_throw hacq (e := parseError)
        (by simp only [Env.query_ok hq0, updateCustomer, hwf, if_true])]
      exact ⟨rfl, rfl⟩

theorem putOrder_run {env : Env} (db : DB) (id : String) (b : OrderBody)
    (hacq : env.acquireError = none) (hq0 : env.queryError 0 = none)
    (hg : (!b.cust_code.truthy || !b.agent_code.truthy || !b.ord_amount.truthy
        || !b.advance_amount.truthy || !b.ord_date.truthy) = false)
    (hwf : [bindParam b.cust_code, bindParam b.agent_code, bindParam b.ord_amount,
      bindParam b.advance_amount, bindParam b.ord_date].any (fun p => decide (p.length ≠ 1))
      = false) :
    putOrder env db id b
      = { db := { db with
                  orders := db.orders.map fun o =>
                    if env.sqlEq o.ORD_NUM (.str id) then putRow b o else o }
          response :=
            if (db.orders.filter fun o => env.sqlEq o.ORD_NUM (.str id)).length = 0 then
              ⟨404, .message "Order not found"⟩
            else ⟨200, .message "Order fully updated successfully"⟩
          log := [], pool := [.acquired, .released] } := by
  unfold putOrder
  rw [hg]
  simp only [Bool.false_eq_true, if_false]
  by_cases h : (db.orders.filter fun o => env.sqlEq o.ORD_NUM (.str id)).length = 0
  · rw [if_pos h]
    apply withConnection_ok hacq
    simp only [Env.query_ok hq0, updateOrder, hwf, Bool.false_eq_true, if_false, updateWhere]
    rw [if_pos h]
  · rw [if_neg h]
    apply withConnection_ok hacq
    simp only [Env.query_ok hq0, updateOrder, hwf, Bool.false_eq_true, if_false, updateWhere]
    rw [if_neg h]

theorem putOrder_fault (env : Env) (db : DB) (id : String) (b : OrderBody)
    (hg : (!b.cust_code.truthy || !b.agent_code.truthy || !b.ord_amount.truthy
        || !b.advance_amount.truthy || !b.ord_date.truthy) = false)
    (h : ¬(env.acquireError = none ∧ env.queryError 0 = none ∧
      [bindParam b.cust_code, bindParam b.agent_code, bindParam b.ord_amount,
        bindParam b.advance_amount, bindParam b.ord_date].any (fun p => decide (p.length ≠ 1))
        = false)) :
    (putOrder env db id b).db = db ∧
    (putOrder env db id b).response = ⟨500, .error "Failed to update order"⟩ := by
  unfold putOrder
  rw [hg]
  simp only [Bool.false_eq_true, if_false]
  cases hacq : env.acquireError with
  | some e => rw [withConnection_noConn hacq]; exact ⟨rfl, rfl⟩
  | none =>
    cases hq0 : env.queryError 0 with
    | some e =>
      rw [withConnection_throw hacq (e := e) (by simp [Env.query, hq0])]
      exact ⟨rfl, rfl⟩
    | none =>
      have hwf : [bindParam b.cust_code, bindParam b.agent_code, bindParam b.ord_amount,
          bindParam b.advance_amount, bindParam b.ord_date].any
          (fun p => decide (p.length ≠ 1)) = true := by
        by_contra hc
        exact h ⟨hacq, hq0, by simpa using hc⟩
      rw [withConnection_throw hacq (e := parseError)
        (by simp only [Env.query_ok hq0, updateOrder, hwf, if_true])]
      exact ⟨rfl, rfl⟩

theorem putOrder_invalid (env : Env) (db : DB) (id : String) (b : OrderBody)
    (hg : (!b.cust_code.truthy || !b.agent_code.truthy || !b.ord_amount.truthy
        || !b.advance_amount.truthy || !b.ord_date.truthy) = true) :
    putOrder env db id b
      = { db := db, response := ⟨400, .error "Missing required fields for full update"⟩,
          log := [], pool := [] } := by
  unfold putOrder
  rw [if_pos hg]

theorem deleteOrder_run {env : Env} (db : DB) (id : String)
    (hacq : env.acquireError = none) (hq0 : env.queryError 0 = none) :
    deleteOrder env db id
      = { db := { db with
                  orders := db.orders.filter fun o => !env.sqlEq o.ORD_NUM (.str id) }
          response :=
            if (db.orders.filter fun o => env.sqlEq o.ORD_NUM (.str id)).length = 0 then
              ⟨404, .message "Order not found"⟩
            else ⟨200, .message "Order deleted successfully"⟩
          log := [], pool := [.acquired, .released] } := by
  unfold deleteOrder
  by_cases h : (db.orders.filter fun o => env.sqlEq o.ORD_NUM (.str id)).length = 0
  · rw [if_pos h]
    apply withConnection_ok hacq
    simp only [Env.query_ok hq0, deleteWhere]
    rw [if_pos h]
  · rw [if_neg h]
    apply withConnection_ok hacq
    simp only [Env.query_ok hq0, deleteWhere]
    rw [if_neg h]


theorem rejected_error {α : Type} (e : Err) : rejected (Except.error e : Except Err α) = true :=
  rfl

theorem rejected_ok {α : Type} (x : α) : rejected (Except.ok x : Except Err α) = false := rfl

theorem rejected_ite_ok {α : Type} (c : Prop) [Decidable c] (x y : α) :
    rejected (if c then (Except.ok x : Except Err α) else .ok y) = false := by
  split <;> rfl

/-- The ways an invocation ends: the validation rejects the request; a failure
is raised, by the pool or by a query, and the `catch` block answers; or no failure
is raised and the response of the `try` block is sent. -/
theorem handle_cases (env : Env) (db : DB) (req : Request) :
    ((req.requiredTruthy = false ∧ failureRaised env db req = false ∧ (∃ text,
          handle env db req
            = { db := db, response := ⟨400, .error text⟩, log := [], pool := [] })) ∨
      (req.requiredTruthy = true ∧ failureRaised env db req = true ∧
        ∃ e, env.acquireError = some e ∧ ∃ label,
          handle env db req
            = { db := db, response := ⟨500, .error req.endpoint.failureText⟩,
                log := [(label, e)], pool := [.acquireFailed] }) ∨
      (req.requiredTruthy = true ∧ failureRaised env db req = true ∧
        ∃ e, env.acquireError = none ∧ ∃ label,
          handle env db req
            = { db := db, response := ⟨500, .error req.endpoint.failureText⟩,
                log := [(label, e)], pool := [.acquired, .released] }) ∨
      (req.requiredTruthy = true ∧ failureRaised env db req = false ∧
          env.acquireError = none ∧
          (handle env db req).log = [] ∧
          (handle env db req).pool = [.acquired, .released] ∧
          ((handle env db req).response.status = 200 ∨
           (handle env db req).response.status = 201 ∨
           (handle env db req).response.status = 404))) := by
  have key : ∀ (label text : String) (tryBody : DB → Except Err (DB × Response)),
      req.requiredTruthy = true → text = req.endpoint.failureText →
      handle env db req = withConnection env db label text tryBody →
      (∀ db' r, tryBody db = .ok (db', r) → r.status = 200 ∨ r.status = 201 ∨ r.status = 404) →
      failureRaised env db req = (env.acquireError.isSome || rejected (tryBody db)) →
      ((req.requiredTruthy = false ∧ failureRaised env db req = false ∧ (∃ text,
          handle env db req
            = { db := db, response := ⟨400, .error text⟩, log := [], pool := [] })) ∨
      (req.requiredTruthy = true ∧ failureRaised env db req = true ∧
        ∃ e, env.acquireError = some e ∧ ∃ label,
          handle env db req
            = { db := db, response := ⟨500, .error req.endpoint.failureText⟩,
                log := [(label, e)], pool := [.acquireFailed] }) ∨
      (req.requiredTruthy = true ∧ failureRaised env db req = true ∧
        ∃ e, env.acquireError = none ∧ ∃ label,
          handle env db req
            = { db := db, response := ⟨500, .error req.endpoint.failureText⟩,
                log := [(label, e)], pool := [.acquired, .released] }) ∨
      (req.requiredTruthy = true ∧ failureRaised env db req = false ∧
          env.acquireError = none ∧
          (handle env db req).log = [] ∧
          (handle env db req).pool = [.acquired, .released] ∧
          ((handle env db req).response.status = 200 ∨
           (handle env db req).response.status = 201 ∨
           (handle env db req).response.status = 404))) := by
    intro label text tryBody ht htext hrun hst hfr
    subst htext
    rw [hrun, hfr]
    rcases withConnection_cases env db label _ tryBody with
      ⟨e, h1, h2⟩ | ⟨e, h1, hb, h2⟩ | ⟨db', r, h1, hb, h2⟩
    · exact Or.inr (Or.inl ⟨ht, by simp [h1], e, h1, label, h2⟩)
    · exact Or.inr (Or.inr (Or.inl ⟨ht, by simp [h1, hb, rejected], e, h1, label, h2⟩))
    · refine Or.inr (Or.inr (Or.inr ⟨ht, by simp [h1, hb, rejected], h1, ?_, ?_, ?_⟩))
      · rw [h2]
      · rw [h2]
      · rw [h2]; exact hst db' r hb
  cases req with
  | getCustomers =>
    refine key "Error fetching customers:" "Failed to fetch customers" ?body1 rfl rfl ?run1
      ?st1 ?fr1
    case run1 =>
      show getCustomers env db = _
      unfold getCustomers
      exact rfl
    case st1 =>
      intro db' r h
      cases hq0 : env.queryError 0 <;> simp [Env.query, hq0] at h
      obtain ⟨_, rfl⟩ := h
      exact Or.inl rfl
    case fr1 =>
      cases hq0 : env.queryError 0 <;> simp [failureRaised, Env.query, hq0, rejected]
  | getCustomerById id =>
    refine key "Error fetching customer with agent and orders:"
      "Failed to fetch customer details" ?body2 rfl rfl ?run2 ?st2 ?fr2
    case run2 =>
      show getCustomerById env db id = _
      unfold getCustomerById
      exact rfl
    case st2 =>
      intro db' r h
      cases hq0 : env.queryError 0 <;> simp [Env.query, hq0] at h
      cases hsel : selectCustomerWithAgent env db (.str id) with
      | nil =>
        simp [hsel] at h
        obtain ⟨_, rfl⟩ := h
        exact Or.inr (Or.inr rfl)
      | cons x xs =>
        cases hq1 : env.queryError 1 <;> simp [hsel, hq1] at h
        obtain ⟨_, rfl⟩ := h
        exact Or.inl rfl
    case fr2 =>
      cases hq0 : env.queryError 0 <;>
        cases hsel : selectCustomerWithAgent env db (.str id) <;>
        cases hq1 : env.queryError 1 <;>
        simp [failureRaised, Env.query, hq0, hq1, hsel, rejected]
  | getOrders =>
    refine key "Error fetching orders:" "Failed to fetch orders" ?body3 rfl rfl ?run3 ?st3 ?fr3
    case run3 =>
      show getOrders env db = _
      unfold getOrders
      exact rfl
    case st3 =>
      intro db' r h
      cases hq0 : env.queryError 0 <;> simp [Env.query, hq0] at h
      obtain ⟨_, rfl⟩ := h
      exact Or.inl rfl
    case fr3 =>
      cases hq0 : env.queryError 0 <;> simp [failureRaised, Env.query, hq0, rejected]
  | postAgents b =>
    by_cases hg : (!b.agent_code.truthy || !b.agent_name.truthy || !b.working_area.truthy)
        = true
    · have hf : (b.agent_code.truthy && b.agent_name.truthy && b.working_area.truthy)
          = false := by
        simp only [Bool.or_eq_true, Bool.not_eq_true'] at hg
        rcases hg with (h | h) | h <;> simp [h]
      refine Or.inl ⟨hf, ?_, "Missing required fields", ?_⟩
      · simp only [failureRaised, hf, Bool.false_and]
      · show postAgents env db b = _
        unfold postAgents
        rw [if_pos hg]
    · have ht : (b.agent_code.truthy && b.agent_name.truthy && b.working_area.truthy)
          = true := by
        simp only [Bool.or_eq_true, Bool.not_eq_true', not_or, Bool.not_eq_false] at hg
        simp [hg.1.1, hg.1.2, hg.2]
      refine key "Error adding agent:" "Failed to add agent" ?bodyA ht rfl ?runA ?stA ?frA
      case runA =>
        show postAgents env db b = _
        unfold postAgents
        rw [if_neg hg]
        exact rfl
      case stA =>
        intro db' r h
        cases hq0 : env.queryError 0 <;> cases hins : insertAgent b db.agents <;>
          simp [Env.query, hq0, hins] at h
        obtain ⟨_, rfl⟩ := h
        exact Or.inr (Or.inl rfl)
      case frA =>
        cases hq0 : env.queryError 0 <;> cases hins : insertAgent b db.agents <;>
          simp [failureRaised, ht, Env.query, hq0, hins, rejected]
  | patchCustomer id b =>
    refine key "Error updating customer:" "Failed to update customer" ?body4 rfl rfl ?run4
      ?st4 ?fr4
    case run4 =>
      show patchCustomer env db id b = _
      unfold patchCustomer
      exact rfl
    case st4 =>
      intro db' r h
      cases hq0 : env.queryError 0 <;> cases hupd : updateCustomer env id b db.customer <;>
        simp [Env.query, hq0, hupd] at h
      split at h
      · obtain ⟨_, rfl⟩ := h
        exact Or.inr (Or.inr rfl)
      · obtain ⟨_, rfl⟩ := h
        exact Or.inl rfl
    case fr4 =>
      cases hq0 : env.queryError 0 <;> cases hupd : updateCustomer env id b db.customer <;>
        simp [failureRaised, Env.query, hq0, hupd, rejected_error, rejected_ok, rejected_ite_ok]
  | putOrder id b =>
    by_cases hg : (!b.cust_code.truthy || !b.agent_code.truthy || !b.ord_amount.truthy
        || !b.advance_amount.truthy || !b.ord_date.truthy) = true
    · have hf : (b.cust_code.truthy && b.agent_code.truthy && b.ord_amount.truthy
          && b.advance_amount.truthy && b.ord_date.truthy) = false := by
        simp only [Bool.or_eq_true, Bool.not_eq_true'] at hg
        rcases hg with (((h | h) | h) | h) | h <;> simp [h]
      refine Or.inl ⟨hf, ?_, "Missing required fields for full update", ?_⟩
      · simp only [failureRaised, hf, Bool.false_and]
      · show putOrder env db id b = _
        unfold putOrder
        rw [if_pos hg]
    · have ht : (b.cust_code.truthy && b.agent_code.truthy && b.ord_amount.truthy
          && b.advance_amount.truthy && b.ord_date.truthy) = true := by
        simp only [Bool.or_eq_true, Bool.not_eq_true', not_or, Bool.not_eq_false] at hg
        simp [hg.1.1.1.1, hg.1.1.1.2, hg.1.1.2, hg.1.2, hg.2]
      refine key "Error updating order:" "Failed to update order" ?bodyP ht rfl ?runP ?stP ?frP
      case runP =>
        show putOrder env db id b = _
        unfold putOrder
        rw [if_neg hg]
        exact rfl
      case stP =>
        intro db' r h
        cases hq0 : env.queryError 0 <;> cases hupd : updateOrder env id b db.orders <;>
          simp [Env.query, hq0, hupd] at h
        split at h
        · obtain ⟨_, rfl⟩ := h
          exact Or.inr (Or.inr rfl)
        · obtain ⟨_, rfl⟩ := h
          exact Or.inl rfl
      case frP =>
        cases hq0 : env.queryError 0 <;> cases hupd : updateOrder env id b db.orders <;>
          simp [failureRaised, ht, Env.query, hq0, hupd, rejected_error, rejected_ok, rejected_ite_ok]
  | deleteOrder id =>
    refine key "Error deleting order:" "Failed to delete order" ?body5 rfl rfl ?run5 ?st5 ?fr5
    case run5 =>
      show deleteOrder env db id = _
      unfold deleteOrder
      exact rfl
    case st5 =>
      intro db' r h
      cases hq0 : env.queryError 0 <;> simp [Env.query, hq0] at h
      split at h
      · obtain ⟨_, rfl⟩ := h
        exact Or.inr (Or.inr rfl)
      · obtain ⟨_, rfl⟩ := h
        exact Or.inl rfl
    case fr5 =>
      cases hq0 : env.queryError 0 <;>
        simp [failureRaised, Env.query, hq0, rejected_error, rejected_ok, rejected_ite_ok]

theorem filled_truthy {v : Val} (h : v.isFilled = true) : v.truthy = true := by
  simp only [Val.isFilled, Bool.and_eq_true] at h
  exact h.1

theorem bindParam_of_isFilled {v : Val} (h : v.isFilled = true) : bindParam v = [v] := by
  simp only [Val.isFilled, Bool.and_eq_true] at h
  exact bindParam_of_isStrOrNum h.2

/-! ## GET /customers/:id -/

/-- C1: for every database state and every id for which the customer table holds
a row `c` with CUST_CODE = id, with the keys and the foreign reference of the data
model in place there (`c` is the only customer row with CUST_CODE = id, its
AGENT_CODE is that of the agents row `a`, and `a` is the only agents row with that
AGENT_CODE), `GET /customers/:id`, the pool and both queries succeeding, answers
200 with a body made of the columns of `c`, the AGENT_NAME, WORKING_AREA (as
AGENT_AREA) and PHONE_NO (as AGENT_PHONE) of `a`, and `orders` equal to exactly
the orders rows with CUST_CODE = id, in table order, each projected to ORD_NUM,
ORD_AMOUNT, ORD_DATE, AGENT_CODE.  The database is left as it was. -/
theorem getCustomerById_found (env : Env) (db : DB) (id : String) (c : Customer) (a : Agent)
    (hacq : env.acquireError = none) (hq0 : env.queryError 0 = none)
    (hq1 : env.queryError 1 = none)
    (hc : c ∈ db.customer) (hid : env.sqlEq c.CUST_CODE (.str id) = true)
    (hckey : ∀ c' ∈ db.customer, env.sqlEq c'.CUST_CODE (.str id) = true → c' = c)
    (ha : a ∈ db.agents) (hjoin : env.sqlEq c.AGENT_CODE a.AGENT_CODE = true)
    (hakey : ∀ a' ∈ db.agents, env.sqlEq c.AGENT_CODE a'.AGENT_CODE = true → a' = a) :
    (getCustomerById env db id).response
      = ⟨200, .customerDetail
          { customer := c, AGENT_NAME := a.AGENT_NAME, AGENT_AREA := a.WORKING_AREA,
            AGENT_PHONE := a.PHONE_NO }
          ((db.orders.filter fun o => env.sqlEq o.CUST_CODE (.str id)).map
            fun o => { ORD_NUM := o.ORD_NUM, ORD_AMOUNT := o.ORD_AMOUNT,
                       ORD_DATE := o.ORD_DATE, AGENT_CODE := o.AGENT_CODE })⟩ ∧
    (getCustomerById env db id).db = db := by
  have hmem : joinRow c a ∈ selectCustomerWithAgent env db (.str id) :=
    mem_selectCustomerWithAgent.2 ⟨c, hc, a, ha, hjoin, hid, rfl⟩
  cases hsel : selectCustomerWithAgent env db (.str id) with
  | nil => rw [hsel] at hmem; exact absurd hmem (List.not_mem_nil _)
  | cons x xs =>
    have hx : x ∈ selectCustomerWithAgent env db (.str id) := by
      rw [hsel]; exact List.mem_cons_self _ _
    obtain ⟨c', hc', a', ha', h1, h2, rfl⟩ := mem_selectCustomerWithAgent.1 hx
    have hcc : c' = c := hckey c' hc' h2
    subst hcc
    have haa : a' = a := hakey a' ha' h1
    subst haa
    have hrun : getCustomerById env db id
        = { db := db
            response := ⟨200, .customerDetail (joinRow c' a') (selectOrdersOf env db (.str id))⟩
            log := [], pool := [.acquired, .released] } := by
      unfold getCustomerById
      apply withConnection_ok hacq
      simp [Env.query_ok hq0, Env.query_ok hq1, hsel]
    rw [hrun]
    exact ⟨rfl, rfl⟩

/-- A run of `getCustomerById_found`: customer `C00013` of `sampleDB`, agent `A003`,
one order. -/
theorem getCustomerById_found_witness :
    (getCustomerById envOk sampleDB "C00013").response
      = ⟨200, .customerDetail
          { customer := customerC1, AGENT_NAME := .str "Alex", AGENT_AREA := .str "London",
            AGENT_PHONE := .str "075-12458969" }
          [{ ORD_NUM := .str "200100", ORD_AMOUNT := .num 1000, ORD_DATE := .str "2008-01-08",
             AGENT_CODE := .str "A003" }]⟩ ∧
    (getCustomerById envOk sampleDB "C00013").db = sampleDB :=
  getCustomerById_found envOk sampleDB "C00013" customerC1 agentA rfl rfl rfl
    (by decide) (by decide) (by decide) (by decide) (by decide) (by decide)

/-! ## PATCH /customers/:id -/

/-- C2 (as stated, refuted): the body supplies only `city`, as the array
`["Paris", "Rome"]`, a customer row has CUST_CODE `C00013` and nothing fails; the
answer is 200 and the CUST_CITY stored is the string `Paris`, the first leaf of
the array, not the supplied value. -/
theorem patchCustomer_array_city_first_leaf :
    (∃ c ∈ sampleDB.customer, envOk.sqlEq c.CUST_CODE (.str "C00013") = true) ∧
    (patchCustomer envOk sampleDB "C00013"
        ⟨.undefined, .undefined, .arr [.str "Paris", .str "Rome"]⟩).response
      = ⟨200, .message "Customer updated successfully"⟩ ∧
    (patchCustomer envOk sampleDB "C00013"
        ⟨.undefined, .undefined, .arr [.str "Paris", .str "Rome"]⟩).db.customer
      = [{ customerC1 with CUST_CITY := .str "Paris" }, customerC2] ∧
    Val.str "Paris" ≠ Val.arr [.str "Paris", .str "Rome"] := by
  decide

/-- C2 (amended): with the pool and the query succeeding, `PATCH /customers/:id`
with a body that supplies only `city`, as a string or a number (`cust_name` and
`phone_no` are absent or null): if a customer row has CUST_CODE = id, the answer
is 200 and the database afterwards is the one before with CUST_CITY set to the
supplied city in the rows with CUST_CODE = id, every other column of those rows
(CUST_NAME and PHONE_NO among them), every other customer row and the other
tables as they were; if no customer row has CUST_CODE = id, the answer is 404 and
the database is as it was. -/
theorem patchCustomer_city_only (env : Env) (db : DB) (id : String) (b : CustomerPatch)
    (hacq : env.acquireError = none) (hq0 : env.queryError 0 = none)
    (hname : b.cust_name.isNullish = true) (hphone : b.phone_no.isNullish = true)
    (hcity : b.city.isStrOrNum = true) :
    ((∃ c ∈ db.customer, env.sqlEq c.CUST_CODE (.str id) = true) →
      (patchCustomer env db id b).response = ⟨200, .message "Customer updated successfully"⟩ ∧
      (patchCustomer env db id b).db
        = { db with
            customer := db.customer.map fun c =>
              if env.sqlEq c.CUST_CODE (.str id) then { c with CUST_CITY := b.city } else c }) ∧
    ((∀ c ∈ db.customer, env.sqlEq c.CUST_CODE (.str id) = false) →
      (patchCustomer env db id b).response = ⟨404, .message "Customer not found"⟩ ∧
      (patchCustomer env db id b).db = db) := by
  have hrow : ∀ c : Customer, patchRow b c = { c with CUST_CITY := b.city } := by
    intro c
    simp [patchRow, bindParam_of_isNullish hname, bindParam_of_isNullish hphone,
      bindParam_of_isStrOrNum hcity, coalesce_null, coalesce_single (ne_null_of_isStrOrNum hcity)]
  have hwf : [bindParam b.cust_name, bindParam b.phone_no, bindParam b.city].any List.isEmpty
      = false := by
    simp [bindParam_of_isNullish hname, bindParam_of_isNullish hphone,
      bindParam_of_isStrOrNum hcity]
  rw [patchCustomer_run db id _ hacq hq0 hwf]
  constructor
  · intro hex
    have hne := (exists_match_iff (fun c => env.sqlEq c.CUST_CODE (.str id)) db.customer).1 hex
    refine ⟨by rw [if_neg hne], ?_⟩
    simp only [hrow]
  · intro hall
    have hz := (filter_length_eq_zero_iff
      (fun c => env.sqlEq c.CUST_CODE (.str id)) db.customer).2 hall
    refine ⟨by rw [if_pos hz], ?_⟩
    show ({ db with customer := _ } : DB) = db
    rw [map_ite_eq_self (fun c => env.sqlEq c.CUST_CODE (.str id)) _ db.customer hall]

/-- A run of `patchCustomer_city_only`: customer `C00013` of `sampleDB` moves to
Paris, and a PATCH of the unknown id `C99999` answers 404. -/
theorem patchCustomer_city_only_witness :
    (patchCustomer envOk sampleDB "C00013" ⟨.undefined, .undefined, .str "Paris"⟩).db.customer
      = [{ customerC1 with CUST_CITY := .str "Paris" }, customerC2] ∧
    (patchCustomer envOk sampleDB "C99999" ⟨.undefined, .undefined, .str "Paris"⟩).response.status
      = 404 := by
  have h := patchCustomer_city_only envOk sampleDB "C00013"
    ⟨.undefined, .undefined, .str "Paris"⟩ rfl rfl (by decide) (by decide) (by decide)
  have h' := patchCustomer_city_only envOk sampleDB "C99999"
    ⟨.undefined, .undefined, .str "Paris"⟩ rfl rfl (by decide) (by decide) (by decide)
  refine ⟨?_, ?_⟩
  · rw [(h.1 ⟨customerC1, by decide, by decide⟩).2]
    decide
  · rw [(h'.2 (by decide)).1]

/-! ## PUT /orders/:id -/

/-- C3 (as stated, refuted): an order with ORD_NUM `200100` exists and nothing
fails.  (a) A body that supplies all five fields, `ord_date` being the empty
string, is answered 400 and the order is not replaced.  (b) A body that supplies
all five fields, `cust_code` being `true`, is answered 200 and the CUST_CODE
stored is the number 1, not the supplied value. -/
theorem putOrder_supplied_values_not_stored :
    (∃ o ∈ sampleDB.orders, envOk.sqlEq o.ORD_NUM (.str "200100") = true) ∧
    (putOrder envOk sampleDB "200100"
        ⟨.str "C00001", .str "A008", .num 2500, .num 100, .str ""⟩).response
      = ⟨400, .error "Missing required fields for full update"⟩ ∧
    (putOrder envOk sampleDB "200100"
        ⟨.str "C00001", .str "A008", .num 2500, .num 100, .str ""⟩).db = sampleDB ∧
    (putOrder envOk sampleDB "200100"
        ⟨.bool true, .str "A008", .num 2500, .num 100, .str "2008-02-01"⟩).response
      = ⟨200, .message "Order fully updated successfully"⟩ ∧
    (putOrder envOk sampleDB "200100"
        ⟨.bool true, .str "A008", .num 2500, .num 100, .str "2008-02-01"⟩).db.orders
      = [{ order1 with CUST_CODE := .num 1, AGENT_CODE := .str "A008",
                       ORD_AMOUNT := .num 2500, ADVANCE_AMOUNT := .num 100,
                       ORD_DATE := .str "2008-02-01" }, order2] ∧
    Val.num 1 ≠ Val.bool true := by
  decide

/-- C3 (amended): with the pool and the query succeeding, `PUT /orders/:id` with a
body whose five fields are all non-empty strings or non-zero numbers: if an order
has ORD_NUM = id, the answer is 200 and afterwards the CUST_CODE, AGENT_CODE,
ORD_AMOUNT, ADVANCE_AMOUNT and ORD_DATE of the rows with ORD_NUM = id are exactly
the five supplied values, their other columns, every other order row and the
other tables being as they were; if no order has ORD_NUM = id, the answer is 404
and the database is as it was. -/
theorem putOrder_replaces (env : Env) (db : DB) (id : String) (b : OrderBody)
    (hacq : env.acquireError = none) (hq0 : env.queryError 0 = none)
    (h1 : b.cust_code.isFilled = true) (h2 : b.agent_code.isFilled = true)
    (h3 : b.ord_amount.isFilled = true) (h4 : b.advance_amount.isFilled = true)
    (h5 : b.ord_date.isFilled = true) :
    ((∃ o ∈ db.orders, env.sqlEq o.ORD_NUM (.str id) = true) →
      (putOrder env db id b).response = ⟨200, .message "Order fully updated successfully"⟩ ∧
      (putOrder env db id b).db
        = { db with
            orders := db.orders.map fun o =>
              if env.sqlEq o.ORD_NUM (.str id) then
                { o with CUST_CODE := b.cust_code, AGENT_CODE := b.agent_code,
                         ORD_AMOUNT := b.ord_amount, ADVANCE_AMOUNT := b.advance_amount,
                         ORD_DATE := b.ord_date }
              else o }) ∧
    ((∀ o ∈ db.orders, env.sqlEq o.ORD_NUM (.str id) = false) →
      (putOrder env db id b).response = ⟨404, .message "Order not found"⟩ ∧
      (putOrder env db id b).db = db) := by
  have hrow : ∀ o : Order,
      putRow b o = { o with CUST_CODE := b.cust_code, AGENT_CODE := b.agent_code,
                            ORD_AMOUNT := b.ord_amount, ADVANCE_AMOUNT := b.advance_amount,
                            ORD_DATE := b.ord_date } := by
    intro o
    simp [putRow, bindParam_of_isFilled h1, bindParam_of_isFilled h2, bindParam_of_isFilled h3,
      bindParam_of_isFilled h4, bindParam_of_isFilled h5]
  have hg : (!b.cust_code.truthy || !b.agent_code.truthy || !b.ord_amount.truthy
      || !b.advance_amount.truthy || !b.ord_date.truthy) = false := by
    simp [filled_truthy h1, filled_truthy h2, filled_truthy h3, filled_truthy h4,
      filled_truthy h5]
  have hwf : [bindParam b.cust_code, bindParam b.agent_code, bindParam b.ord_amount,
      bindParam b.advance_amount, bindParam b.ord_date].any (fun p => decide (p.length ≠ 1))
      = false := by
    simp [bindParam_of_isFilled h1, bindParam_of_isFilled h2, bindParam_of_isFilled h3,
      bindParam_of_isFilled h4, bindParam_of_isFilled h5]
  rw [putOrder_run db id b hacq hq0 hg hwf]
  constructor
  · intro hex
    have hne := (exists_match_iff (fun o => env.sqlEq o.ORD_NUM (.str id)) db.orders).1 hex
    refine ⟨by rw [if_neg hne], ?_⟩
    simp only [hrow]
  · intro hall
    have hz := (filter_length_eq_zero_iff
      (fun o => env.sqlEq o.ORD_NUM (.str id)) db.orders).2 hall
    refine ⟨by rw [if_pos hz], ?_⟩
    show ({ db with orders := _ } : DB) = db
    rw [map_ite_eq_self (fun o => env.sqlEq o.ORD_NUM (.str id)) _ db.orders hall]

/-- A run of `putOrder_replaces`: order `200100` of `sampleDB` is replaced, and a
PUT on the unknown number `999999` answers 404. -/
theorem putOrder_replaces_witness :
    (putOrder envOk sampleDB "200100"
        ⟨.str "C00001", .str "A008", .num 2500, .num 100, .str "2008-02-01"⟩).db.orders
      = [{ order1 with CUST_CODE := .str "C00001", AGENT_CODE := .str "A008",
                       ORD_AMOUNT := .num 2500, ADVANCE_AMOUNT := .num 100,
                       ORD_DATE := .str "2008-02-01" }, order2] ∧
    (putOrder envOk sampleDB "999999"
        ⟨.str "C00001", .str "A008", .num 2500, .num 100, .str "2008-02-01"⟩).response.status
      = 404 := by
  have h := putOrder_replaces envOk sampleDB "200100"
    ⟨.str "C00001", .str "A008", .num 2500, .num 100, .str "2008-02-01"⟩ rfl rfl
    (by decide) (by decide) (by decide) (by decide) (by decide)
  have h' := putOrder_replaces envOk sampleDB "999999"
    ⟨.str "C00001", .str "A008", .num 2500, .num 100, .str "2008-02-01"⟩ rfl rfl
    (by decide) (by decide) (by decide) (by decide) (by decide)
  refine ⟨?_, ?_⟩
  · rw [(h.1 ⟨order1, by decide, by decide⟩).2]
    decide
  · rw [(h'.2 (by decide)).1]

/-! ## DELETE /orders/:id -/

/-- C4: with the pool and the query succeeding, `DELETE /orders/:id` on an id for
which an order row has ORD_NUM = id answers 200 and leaves the database equal to
the one before with exactly the orders rows with ORD_NUM = id removed; the same
DELETE issued again on the resulting state answers 404 and leaves that state as
it is. -/
theorem deleteOrder_then_repeat (env : Env) (db : DB) (id : String)
    (hacq : env.acquireError = none) (hq0 : env.queryError 0 = none)
    (hex : ∃ o ∈ db.orders, env.sqlEq o.ORD_NUM (.str id) = true) :
    (deleteOrder env db id).response = ⟨200, .message "Order deleted successfully"⟩ ∧
    (deleteOrder env db id).db
      = { db with orders := db.orders.filter fun o => !env.sqlEq o.ORD_NUM (.str id) } ∧
    (deleteOrder env (deleteOrder env db id).db id).response
      = ⟨404, .message "Order not found"⟩ ∧
    (deleteOrder env (deleteOrder env db id).db id).db = (deleteOrder env db id).db := by
  have hne := (exists_match_iff (fun o => env.sqlEq o.ORD_NUM (.str id)) db.orders).1 hex
  have hfirst := deleteOrder_run db id hacq hq0
  rw [if_neg hne] at hfirst
  have hgone : ∀ o ∈ db.orders.filter (fun o => !env.sqlEq o.ORD_NUM (.str id)),
      env.sqlEq o.ORD_NUM (.str id) = false := by
    intro o ho
    simpa using (List.mem_filter.1 ho).2
  have hz := (filter_length_eq_zero_iff (fun o : Order => env.sqlEq o.ORD_NUM (.str id)) _).2
    hgone
  have hsecond := @deleteOrder_run env
    { db with orders := db.orders.filter fun o => !env.sqlEq o.ORD_NUM (.str id) } id hacq hq0
  rw [if_pos hz] at hsecond
  rw [hfirst]
  refine ⟨rfl, rfl, ?_, ?_⟩
  · show (deleteOrder env { db with orders := _ } id).response = _
    rw [hsecond]
  · show (deleteOrder env { db with orders := _ } id).db = _
    rw [hsecond]
    show ({ db with orders := _ } : DB) = { db with orders := _ }
    rw [filter_not_eq_self (fun o : Order => env.sqlEq o.ORD_NUM (.str id)) _ hgone]

/-- A run of `deleteOrder_then_repeat`: order `200100` of `sampleDB`. -/
theorem deleteOrder_then_repeat_witness :
    (deleteOrder envOk sampleDB "200100").response
      = ⟨200, .message "Order deleted successfully"⟩ ∧
    (deleteOrder envOk sampleDB "200100").db
      = { sampleDB with
          orders := sampleDB.orders.filter fun o => !envOk.sqlEq o.ORD_NUM (.str "200100") } ∧
    (deleteOrder envOk (deleteOrder envOk sampleDB "200100").db "200100").response
      = ⟨404, .message "Order not found"⟩ ∧
    (deleteOrder envOk (deleteOrder envOk sampleDB "200100").db "200100").db
      = (deleteOrder envOk sampleDB "200100").db :=
  deleteOrder_then_repeat envOk sampleDB "200100" rfl rfl ⟨order1, by decide, by decide⟩

/-! ## Validation of required fields -/

/-- C5: a `POST /agents` whose body lacks `agent_code`, `agent_name` or
`working_area`, and a `PUT /orders/:id` whose body lacks any of its five required
fields (the field is absent, or null), is answered 400 with an `error` body,
whatever the pool and the server would do: no connection is requested (no pool
event at all), nothing is logged and the database state is the one before. -/
theorem missing_required_field_rejected (env : Env) (db : DB) (req : Request)
    (hlack : req.lacksRequired = true) :
    (handle env db req).response.status = 400 ∧
    (∃ text, (handle env db req).response.body = .error text) ∧
    (handle env db req).pool = [] ∧
    (handle env db req).log = [] ∧
    (handle env db req).db = db := by
  cases req with
  | postAgents b =>
    have hg : (!b.agent_code.truthy || !b.agent_name.truthy || !b.working_area.truthy)
        = true := by
      simp only [Request.lacksRequired, Bool.or_eq_true] at hlack
      rcases hlack with (h | h) | h <;> simp [truthy_of_isNullish h]
    have hrun : handle env db (.postAgents b)
        = { db := db, response := ⟨400, .error "Missing required fields"⟩,
            log := [], pool := [] } := by
      show postAgents env db b = _
      unfold postAgents
      rw [if_pos hg]
    rw [hrun]
    exact ⟨rfl, ⟨_, rfl⟩, rfl, rfl, rfl⟩
  | putOrder id b =>
    have hg : (!b.cust_code.truthy || !b.agent_code.truthy || !b.ord_amount.truthy
        || !b.advance_amount.truthy || !b.ord_date.truthy) = true := by
      simp only [Request.lacksRequired, Bool.or_eq_true] at hlack
      rcases hlack with (((h | h) | h) | h) | h <;> simp [truthy_of_isNullish h]
    have hrun : handle env db (.putOrder id b)
        = { db := db, response := ⟨400, .error "Missing required fields for full update"⟩,
            log := [], pool := [] } := by
      show putOrder env db id b = _
      unfold putOrder
      rw [if_pos hg]
    rw [hrun]
    exact ⟨rfl, ⟨_, rfl⟩, rfl, rfl, rfl⟩
  | getCustomers => simp [Request.lacksRequired] at hlack
  | getCustomerById id => simp [Request.lacksRequired] at hlack
  | getOrders => simp [Request.lacksRequired] at hlack
  | patchCustomer id b => simp [Request.lacksRequired] at hlack
  | deleteOrder id => simp [Request.lacksRequired] at hlack

/-- A run of `missing_required_field_rejected`: a `PUT /orders/200100` without
`ord_date`, sent while the pool is down. -/
theorem missing_required_field_rejected_witness :
    (handle (envPoolDown "ECONNREFUSED") sampleDB
      (.putOrder "200100" ⟨.str "C00001", .str "A008", .num 1, .num 1, .undefined⟩)).response.status
      = 400 ∧
    (handle (envPoolDown "ECONNREFUSED") sampleDB
      (.putOrder "200100" ⟨.str "C00001", .str "A008", .num 1, .num 1, .undefined⟩)).pool = [] ∧
    (handle (envPoolDown "ECONNREFUSED") sampleDB
      (.putOrder "200100" ⟨.str "C00001", .str "A008", .num 1, .num 1, .undefined⟩)).db
      = sampleDB :=
  have h := missing_required_field_rejected (envPoolDown "ECONNREFUSED") sampleDB
    (.putOrder "200100" ⟨.str "C00001", .str "A008", .num 1, .num 1, .undefined⟩) (by decide)
  ⟨h.1, h.2.2.1, h.2.2.2.2⟩

/-- C6 (as stated, refuted): a `POST /agents` in which the three required fields
are all present, `agent_name` being the empty string, and a `PUT /orders/:id` in
which the five required fields are all present, `cust_code` being `false`, are
both answered 400 and do not reach the pool. -/
theorem present_falsy_field_rejected :
    (Request.postAgents
      ⟨.str "A013", .str "", .str "Leeds", .undefined, .undefined, .undefined⟩).lacksRequired
      = false ∧
    (handle envOk sampleDB (.postAgents
      ⟨.str "A013", .str "", .str "Leeds", .undefined, .undefined, .undefined⟩))
      = { db := sampleDB, response := ⟨400, .error "Missing required fields"⟩,
          log := [], pool := [] } ∧
    (Request.putOrder "200100"
      ⟨.bool false, .str "A008", .num 2500, .num 100, .str "2008-02-01"⟩).lacksRequired
      = false ∧
    (handle envOk sampleDB (.putOrder "200100"
      ⟨.bool false, .str "A008", .num 2500, .num 100, .str "2008-02-01"⟩))
      = { db := sampleDB, response := ⟨400, .error "Missing required fields for full update"⟩,
          log := [], pool := [] } := by
  decide


/-- C6 (amended): the validation tests truthiness and nothing else (no type or
range check): a request whose required fields are all truthy (none absent, null,
false, 0 or the empty string), whatever else their values, is not answered 400
and proceeds to the data access (the handler calls `pool.getConnection()`),
whatever the pool and the server then do. -/
theorem truthy_required_fields_accepted (env : Env) (db : DB) (req : Request)
    (htruthy : req.requiredTruthy = true) :
    (handle env db req).response.status ≠ 400 ∧ (handle env db req).pool ≠ [] := by
  rcases handle_cases env db req with ⟨h, _⟩ | ⟨_, _, h⟩ | ⟨_, _, h⟩ | ⟨_, _, h⟩
  · rw [h] at htruthy
    exact absurd htruthy (by decide)
  · obtain ⟨e, _, label, h⟩ := h
    rw [h]
    exact ⟨by simp, by simp⟩
  · obtain ⟨e, _, label, h⟩ := h
    rw [h]
    exact ⟨by simp, by simp⟩
  · obtain ⟨_, _, hpool, hst⟩ := h
    rw [hpool]
    refine ⟨?_, by simp⟩
    rcases hst with hst | hst | hst <;> rw [hst] <;> decide

/-- A run of `truthy_required_fields_accepted`: a `POST /agents` whose three
required fields are a number, an array and `true`. -/
theorem truthy_required_fields_accepted_witness :
    (handle envOk sampleDB (.postAgents
      ⟨.num 7, .arr [.num 1], .bool true, .undefined, .undefined, .undefined⟩)).response.status
      ≠ 400 ∧
    (handle envOk sampleDB (.postAgents
      ⟨.num 7, .arr [.num 1], .bool true, .undefined, .undefined, .undefined⟩)).pool ≠ [] :=
  truthy_required_fields_accepted envOk sampleDB
    (.postAgents ⟨.num 7, .arr [.num 1], .bool true, .undefined, .undefined, .undefined⟩)
    (by decide)

/-! ## POST /agents -/

theorem bindParam_or_default {v d : Val} (hv : (!v.truthy || v.isStrOrNum) = true)
    (hd : bindParam d = [d]) :
    bindParam (v.or d) = [if v.truthy then v else d] := by
  unfold Val.or
  by_cases ht : v.truthy = true
  · have hs : v.isStrOrNum = true := by simpa [ht] using hv
    simp [ht, bindParam_of_isStrOrNum hs]
  · simp [ht, hd]

/-- C7 (as stated, refuted): the agents table does not hold the agent codes
`A013` and 7, and nothing fails.  (a) A `POST /agents` whose three required fields
are all present, `working_area` being the empty string, is answered 400 and
inserts nothing.  (b) A `POST /agents` that supplies `phone_no` as the empty
string and `commission` as `false` stores PHONE_NO as null and COMMISSION as 0,
not the supplied values.  (c) A `POST /agents` that supplies `agent_name` as the
array `[1]` and `working_area` as `true` is answered 201 and stores the number 1
in both columns, not the supplied values. -/
theorem postAgents_supplied_values_not_kept :
    (∀ a ∈ sampleDB.agents, envOk.sqlEq a.AGENT_CODE (.str "A013") = false) ∧
    (∀ a ∈ sampleDB.agents, envOk.sqlEq a.AGENT_CODE (.num 7) = false) ∧
    (Request.postAgents
      ⟨.str "A013", .str "Ann", .str "", .undefined, .undefined, .undefined⟩).lacksRequired
      = false ∧
    postAgents envOk sampleDB ⟨.str "A013", .str "Ann", .str "", .undefined, .undefined, .undefined⟩
      = { db := sampleDB, response := ⟨400, .error "Missing required fields"⟩,
          log := [], pool := [] } ∧
    (postAgents envOk sampleDB
        ⟨.str "A013", .str "Ann", .str "Leeds", .bool false, .str "", .undefined⟩).db.agents
      = sampleDB.agents ++
          [{ AGENT_CODE := .str "A013", AGENT_NAME := .str "Ann", WORKING_AREA := .str "Leeds",
             COMMISSION := .num 0, PHONE_NO := .null, COUNTRY := .null }] ∧
    (postAgents envOk sampleDB
        ⟨.num 7, .arr [.num 1], .bool true, .undefined, .undefined, .undefined⟩).response
      = ⟨201, .message "Agent created successfully"⟩ ∧
    (postAgents envOk sampleDB
        ⟨.num 7, .arr [.num 1], .bool true, .undefined, .undefined, .undefined⟩).db.agents
      = sampleDB.agents ++
          [{ AGENT_CODE := .num 7, AGENT_NAME := .num 1, WORKING_AREA := .num 1,
             COMMISSION := .num 0, PHONE_NO := .null, COUNTRY := .null }] ∧
    Val.num 1 ≠ Val.arr [.num 1] ∧ Val.num 1 ≠ Val.bool true := by
  decide

/-- C7 (amended): with the pool and the `INSERT` succeeding, a `POST /agents`
whose `agent_code`, `agent_name` and `working_area` are all non-empty strings or
non-zero numbers, and whose `commission`, `phone_no` and `country` are each a
string, a number or falsy (absent, null, false), is answered 201, and the agents
table gains exactly one row, appended, the other tables being as they were: the
row carries the supplied agent_code, agent_name and working_area, COMMISSION
equal to the supplied commission when that is truthy and 0 otherwise (so 0 when
omitted), and PHONE_NO and COUNTRY equal to the supplied values when truthy and
null otherwise (so null when omitted).  Whether the table already holds the
agent_code plays no part: an insert the server refuses for a duplicate key is a
query that throws. -/
theorem postAgents_inserts (env : Env) (db : DB) (b : AgentBody)
    (hacq : env.acquireError = none) (hq0 : env.queryError 0 = none)
    (h1 : b.agent_code.isFilled = true) (h2 : b.agent_name.isFilled = true)
    (h3 : b.working_area.isFilled = true)
    (h4 : (!b.commission.truthy || b.commission.isStrOrNum) = true)
    (h5 : (!b.phone_no.truthy || b.phone_no.isStrOrNum) = true)
    (h6 : (!b.country.truthy || b.country.isStrOrNum) = true) :
    (postAgents env db b).response = ⟨201, .message "Agent created successfully"⟩ ∧
    (postAgents env db b).db
      = { db with
          agents := db.agents ++
            [{ AGENT_CODE := b.agent_code, AGENT_NAME := b.agent_name,
               WORKING_AREA := b.working_area,
               COMMISSION := if b.commission.truthy then b.commission else .num 0,
               PHONE_NO := if b.phone_no.truthy then b.phone_no else .null,
               COUNTRY := if b.country.truthy then b.country else .null }] } := by
  have e4 := bindParam_or_default (d := .num 0) h4 rfl
  have e5 := bindParam_or_default (d := .null) h5 rfl
  have e6 := bindParam_or_default (d := .null) h6 rfl
  have hins : insertAgent b db.agents
      = .ok (db.agents ++
          [{ AGENT_CODE := b.agent_code, AGENT_NAME := b.agent_name,
             WORKING_AREA := b.working_area,
             COMMISSION := if b.commission.truthy then b.commission else .num 0,
             PHONE_NO := if b.phone_no.truthy then b.phone_no else .null,
             COUNTRY := if b.country.truthy then b.country else .null }]) := by
    simp [insertAgent, agentParams, agentRow, bindParam_of_isFilled h1, bindParam_of_isFilled h2,
      bindParam_of_isFilled h3, e4, e5, e6]
  have hrun : postAgents env db b
      = { db := { db with
                  agents := db.agents ++
                    [{ AGENT_CODE := b.agent_code, AGENT_NAME := b.agent_name,
                       WORKING_AREA := b.working_area,
                       COMMISSION := if b.commission.truthy then b.commission else .num 0,
                       PHONE_NO := if b.phone_no.truthy then b.phone_no else .null,
                       COUNTRY := if b.country.truthy then b.country else .null }] }
          response := ⟨201, .message "Agent created successfully"⟩
          log := [], pool := [.acquired, .released] } := by
    unfold postAgents
    simp only [filled_truthy h1, filled_truthy h2, filled_truthy h3, Bool.not_true, Bool.or_self,
      Bool.false_eq_true, if_false]
    apply withConnection_ok hacq
    simp only [Env.query_ok hq0, hins]
  rw [hrun]
  exact ⟨rfl, rfl⟩

/-- A run of `postAgents_inserts`: agent `A013` is created with only the three
required fields, so with COMMISSION 0 and PHONE_NO and COUNTRY null. -/
theorem postAgents_inserts_witness :
    (postAgents envOk sampleDB
        ⟨.str "A013", .str "Ann", .str "Leeds", .undefined, .undefined, .undefined⟩).response.status
      = 201 ∧
    (postAgents envOk sampleDB
        ⟨.str "A013", .str "Ann", .str "Leeds", .undefined, .undefined, .undefined⟩).db.agents
      = [agentA, agentB,
         { AGENT_CODE := .str "A013", AGENT_NAME := .str "Ann", WORKING_AREA := .str "Leeds",
           COMMISSION := .num 0, PHONE_NO := .null, COUNTRY := .null }] := by
  have h := postAgents_inserts envOk sampleDB
    ⟨.str "A013", .str "Ann", .str "Leeds", .undefined, .undefined, .undefined⟩ rfl rfl
    (by decide) (by decide) (by decide) (by decide) (by decide) (by decide)
  refine ⟨?_, ?_⟩
  · rw [h.1]
  · rw [h.2]
    decide

/-! ## Idempotence of PATCH and PUT -/

/-- C8: `PATCH /customers/:id` and `PUT /orders/:id` are idempotent on the stored
state: for every environment, database state, id and body, the same request
applied a second time, to the state the first application left, leaves that state
as it is and is answered as the first was (same status, same body). -/
theorem patch_put_idempotent (env : Env) (db : DB) (id : String) (pb : CustomerPatch)
    (ob : OrderBody) :
    (patchCustomer env (patchCustomer env db id pb).db id pb).db
      = (patchCustomer env db id pb).db ∧
    (patchCustomer env (patchCustomer env db id pb).db id pb).response
      = (patchCustomer env db id pb).response ∧
    (putOrder env (putOrder env db id ob).db id ob).db = (putOrder env db id ob).db ∧
    (putOrder env (putOrder env db id ob).db id ob).response
      = (putOrder env db id ob).response := by
  have hpatch : (patchCustomer env (patchCustomer env db id pb).db id pb).db
        = (patchCustomer env db id pb).db ∧
      (patchCustomer env (patchCustomer env db id pb).db id pb).response
        = (patchCustomer env db id pb).response := by
    by_cases hf : env.acquireError = none ∧ env.queryError 0 = none ∧
        [bindParam pb.cust_name, bindParam pb.phone_no, bindParam pb.city].any List.isEmpty
          = false
    · have hidem := updateWhere_idem (fun c : Customer => env.sqlEq c.CUST_CODE (.str id))
        (patchRow pb) db.customer (fun _ => rfl) (patchRow_idem pb)
      have hm := congrArg Prod.fst hidem
      have hc := congrArg Prod.snd hidem
      simp only [updateWhere] at hm hc
      rw [patchCustomer_run db id pb hf.1 hf.2.1 hf.2.2]
      simp only []
      rw [patchCustomer_run _ id pb hf.1 hf.2.1 hf.2.2]
      simp only [hm, hc, and_self]
    · obtain ⟨h1, h2⟩ := patchCustomer_fault env db id pb hf
      rw [h1]
      exact ⟨h1, rfl⟩
  have hput : (putOrder env (putOrder env db id ob).db id ob).db = (putOrder env db id ob).db ∧
      (putOrder env (putOrder env db id ob).db id ob).response
        = (putOrder env db id ob).response := by
    cases hg : (!ob.cust_code.truthy || !ob.agent_code.truthy || !ob.ord_amount.truthy
        || !ob.advance_amount.truthy || !ob.ord_date.truthy) with
    | true =>
      rw [putOrder_invalid env db id ob hg]
      simp only []
      rw [putOrder_invalid env db id ob hg]
      exact ⟨rfl, rfl⟩
    | false =>
      by_cases hf : env.acquireError = none ∧ env.queryError 0 = none ∧
          [bindParam ob.cust_code, bindParam ob.agent_code, bindParam ob.ord_amount,
            bindParam ob.advance_amount, bindParam ob.ord_date].any
            (fun p => decide (p.length ≠ 1)) = false
      · have hidem := updateWhere_idem (fun o : Order => env.sqlEq o.ORD_NUM (.str id))
          (putRow ob) db.orders (fun _ => rfl) (fun _ => rfl)
        have hm := congrArg Prod.fst hidem
        have hc := congrArg Prod.snd hidem
        simp only [updateWhere] at hm hc
        rw [putOrder_run db id ob hf.1 hf.2.1 hg hf.2.2]
        simp only []
        rw [putOrder_run _ id ob hf.1 hf.2.1 hg hf.2.2]
        simp only [hm, hc, and_self]
      · obtain ⟨h1, h2⟩ := putOrder_fault env db id ob hg hf
        rw [h1]
        exact ⟨h1, rfl⟩
  exact ⟨hpatch.1, hpatch.2, hput.1, hput.2⟩

/-! ## The connection is released on every path -/

/-- C9: for every database-backed handler and whatever the pool and the queries
do, the pool events of an invocation are one of: none at all (the validation
rejected the request before the pool was asked); a failed acquisition and nothing
else, so no release; or one successful acquisition followed by exactly one
release, the last thing the handler does, whether the queries succeeded, found
nothing, or threw.  Releases therefore equal successful acquisitions, and the
number of connections held is the same after the handler as before it. -/
theorem connection_released_exactly_once (env : Env) (db : DB) (req : Request) (n : Nat) :
    ((req.requiredTruthy = false ∧ (handle env db req).pool = []) ∨
     (env.acquireError ≠ none ∧ (handle env db req).pool = [.acquireFailed]) ∨
     (env.acquireError = none ∧ (handle env db req).pool = [.acquired, .released])) ∧
    (handle env db req).pool.count .released = (handle env db req).pool.count .acquired ∧
    held n (handle env db req).pool = n := by
  rcases handle_cases env db req with ⟨ht, _, text, h⟩ | ⟨_, _, e, hacq, label, h⟩ |
    ⟨_, _, e, hacq, label, h⟩ | ⟨_, _, hacq, _, hpool, _⟩
  · rw [h]
    exact ⟨Or.inl ⟨ht, rfl⟩, rfl, rfl⟩
  · rw [h]
    exact ⟨Or.inr (Or.inl ⟨by simp [hacq], rfl⟩), by simp, rfl⟩
  · rw [h]
    exact ⟨Or.inr (Or.inr ⟨hacq, rfl⟩), by simp, by simp [held]⟩
  · rw [hpool]
    exact ⟨Or.inr (Or.inr ⟨hacq, rfl⟩), by simp, by simp [held]⟩

/-! ## Failures are answered generically -/

/-- The `catch` block of a handler runs, and logs an error, exactly when a failure
is raised in the invocation. -/
theorem failureRaised_iff_logged (env : Env) (db : DB) (req : Request) :
    failureRaised env db req = true ↔ (handle env db req).log ≠ [] := by
  rcases handle_cases env db req with ⟨_, hf, text, h⟩ | ⟨_, hf, e, _, label, h⟩ |
    ⟨_, hf, e, _, label, h⟩ | ⟨_, hf, _, hlog, _⟩
  · rw [hf, h]; simp
  · rw [hf, h]; simp
  · rw [hf, h]; simp
  · rw [hf, hlog]; simp

/-- C10: for every database-backed handler and every failure raised in an
invocation, by the connection acquisition or by a query the handler issues (the
first query, or the second query of `GET /customers/:id`), the response is 500
with the body `{error: text}`, where `text` is fixed by the endpoint alone: two
failing runs of the same endpoint, whatever the errors, the database states and
the requests, send identical responses. -/
theorem failure_response_generic (env₁ env₂ : Env) (db₁ db₂ : DB) (req₁ req₂ : Request)
    (hsame : req₁.endpoint = req₂.endpoint)
    (h₁ : failureRaised env₁ db₁ req₁ = true) (h₂ : failureRaised env₂ db₂ req₂ = true) :
    (handle env₁ db₁ req₁).response = ⟨500, .error req₁.endpoint.failureText⟩ ∧
    (handle env₂ db₂ req₂).response = (handle env₁ db₁ req₁).response := by
  have key : ∀ (env : Env) (db : DB) (req : Request), failureRaised env db req = true →
      (handle env db req).response = ⟨500, .error req.endpoint.failureText⟩ := by
    intro env db req hraised
    rcases handle_cases env db req with ⟨_, hf, _⟩ | ⟨_, _, e, _, label, h⟩ |
      ⟨_, _, e, _, label, h⟩ | ⟨_, hf, _⟩
    · rw [hf] at hraised
      exact absurd hraised (by decide)
    · rw [h]
    · rw [h]
    · rw [hf] at hraised
      exact absurd hraised (by decide)
  rw [key env₁ db₁ req₁ h₁, key env₂ db₂ req₂ h₂, hsame]
  exact ⟨rfl, rfl⟩

/-- A run of `failure_response_generic`: a `GET /customers/C00013` while the pool
is down and a `GET /customers/C00001` whose second query, the one for the orders,
throws, log different errors and send the same response. -/
theorem failure_response_generic_witness :
    (handle (envPoolDown "ECONNREFUSED") sampleDB (.getCustomerById "C00013")).log
      = [("Error fetching customer with agent and orders:", "ECONNREFUSED")] ∧
    (handle (envQueryFails 1 "ER_LOCK_WAIT_TIMEOUT") sampleDB (.getCustomerById "C00001")).log
      = [("Error fetching customer with agent and orders:", "ER_LOCK_WAIT_TIMEOUT")] ∧
    (handle (envPoolDown "ECONNREFUSED") sampleDB (.getCustomerById "C00013")).response
      = ⟨500, .error "Failed to fetch customer details"⟩ ∧
    (handle (envQueryFails 1 "ER_LOCK_WAIT_TIMEOUT") sampleDB
        (.getCustomerById "C00001")).response
      = (handle (envPoolDown "ECONNREFUSED") sampleDB (.getCustomerById "C00013")).response :=
  have h := failure_response_generic (envPoolDown "ECONNREFUSED")
    (envQueryFails 1 "ER_LOCK_WAIT_TIMEOUT") sampleDB sampleDB (.getCustomerById "C00013")
    (.getCustomerById "C00001") rfl (by decide) (by decide)
  ⟨by decide, by decide, h.1, h.2⟩

end RestApi
